import Mathlib

/-!
Shallow embedding of the DIA voice session server (`src/app.py`): the WAV
framer, the upstream session client with connect retry, the audio relay
engine's duty cycles (send, receive, broadcast), and the session manager
operations exposed over HTTP and WebSocket.

Machine integers are modelled as `Nat` with explicit bounds where Python
raises `OverflowError`; fallible operations return `Option`; the
cooperatively scheduled loops are modelled as fuel- or event-list-driven
recursive functions over explicit state records, and the critical sections
held under `session_lock` are modelled as atomic state transformers that
additionally emit an action trace recording the order of their effects.
-/

/-! ### WAV framer (`create_wav_header`, src/app.py:470-501) -/

/-- Little-endian byte expansion of `n` into exactly `len` bytes
(the payload of Python `int.to_bytes(len, "little")`). -/
def natToBytesAux : Nat → Nat → List Nat
  | _, 0 => []
  | n, len + 1 => n % 256 :: natToBytesAux (n / 256) len

/-- Python `n.to_bytes(len, "little")` for a nonnegative `n`: `none` models
the `OverflowError` raised when `n` does not fit in `len` bytes. -/
def to_bytes (n len : Nat) : Option (List Nat) :=
  if n < 256 ^ len then some (natToBytesAux n len) else none

/-- `create_wav_header(data_length, sample_rate, channels, sample_width)`
(src/app.py:470): builds the canonical 44-byte RIFF/WAVE/fmt/data header for
raw PCM of length `data_length`, field by field in source order.  The result
is `none` exactly when one of the `to_bytes` encodings overflows. -/
def create_wav_header (data_length sample_rate channels sample_width : Nat) :
    Option (List Nat) := do
  let chunkSize ← to_bytes (data_length + 36) 4
  let sub1Size ← to_bytes 16 4
  let audioFormat ← to_bytes 1 2
  let ch ← to_bytes channels 2
  let sr ← to_bytes sample_rate 4
  let br ← to_bytes (sample_rate * channels * sample_width) 4
  let ba ← to_bytes (channels * sample_width) 2
  let bps ← to_bytes (sample_width * 8) 2
  let dl ← to_bytes data_length 4
  return [82, 73, 70, 70] ++ chunkSize ++ [87, 65, 86, 69] ++
    [102, 109, 116, 32] ++ sub1Size ++ audioFormat ++ ch ++ sr ++ br ++
    ba ++ bps ++ [100, 97, 116, 97] ++ dl

/-- Little-endian read of a byte list back into a number (used to re-parse
header fields when checking the framing round-trip). -/
def le_bytes_to_nat : List Nat → Nat
  | [] => 0
  | b :: rest => b + 256 * le_bytes_to_nat rest

/-- Re-parse one header field: `len` bytes starting at byte offset `off`. -/
def readField (h : List Nat) (off len : Nat) : Nat :=
  le_bytes_to_nat ((h.drop off).take len)

/-- The header produced for payload length `L` at the rates used by
`play_audio` (src/app.py:744): 24000 Hz, mono, 16-bit. -/
def wav_header_bytes (L : Nat) : List Nat :=
  [82, 73, 70, 70] ++ natToBytesAux (L + 36) 4 ++ [87, 65, 86, 69] ++
    [102, 109, 116, 32] ++ natToBytesAux 16 4 ++ natToBytesAux 1 2 ++
    natToBytesAux 1 2 ++ natToBytesAux 24000 4 ++ natToBytesAux 48000 4 ++
    natToBytesAux 2 2 ++ natToBytesAux 16 2 ++ [100, 97, 116, 97] ++
    natToBytesAux L 4

/-! ### Audio relay engine (`AudioLoop`, src/app.py:572-809) -/

/-- An AudioFrame as enqueued by the WebSocket ingress (src/app.py:923-926):
a raw byte payload plus a MIME hint.  As a two-key Python dict it is always
truthy, so the `if content:` test in `send_realtime` always passes. -/
structure Frame where
  data : List Nat
  mime_type : String
deriving DecidableEq

/-- The mutable state of one `AudioLoop` instance (src/app.py:580-590):
the running flag, the upstream `session` handle, the stored context handle
`_session_ctx` (set only by `connect_with_retry`), and the two queues. -/
structure AudioLoopState where
  is_running : Bool
  session : Bool
  session_ctx : Bool
  audio_in_queue : List (List Nat)
  out_queue : List Frame
deriving DecidableEq

/-- `AudioLoop.__init__` (src/app.py:580): not running, no session handle,
empty queues. -/
def initAudioLoop : AudioLoopState :=
  { is_running := false, session := false, session_ctx := false,
    audio_in_queue := [], out_queue := [] }

/-- Observable actions of the engine and manager, recorded in the order the
code performs them. -/
inductive Act where
  | setRunning (b : Bool)
  | sleepMs (ms : Nat)
  | closeSession (failed : Bool)
  | drainQueues
  | connectAttempt (n : Nat)
  | joinThread (timeoutMs : Nat)
  | createLoop
  | closeClient (c : Nat)
deriving DecidableEq

/-- The `while not queue.empty(): queue.get_nowait()` drain inside
`_clear_queues` (src/app.py:646-652). -/
def drainQueue {α : Type} : List α → List α
  | [] => []
  | _ :: rest => drainQueue rest

/-- `AudioLoop._clear_queues` (src/app.py:644): drain both queues. -/
def clear_queues (st : AudioLoopState) : AudioLoopState :=
  { st with audio_in_queue := drainQueue st.audio_in_queue,
            out_queue := drainQueue st.out_queue }

/-- `AudioLoop.stop` (src/app.py:621-642): clear the running flag, wait the
500 ms grace interval, close the upstream handle when both `_session_ctx`
and `session` are present (a close error is caught and logged; the `finally`
block releases both handles either way), then drain both queues.
`closeFails` models whether `__aexit__` raises. -/
def AudioLoop.stop (closeFails : Bool) (st : AudioLoopState) :
    AudioLoopState × List Act :=
  let st1 := { st with is_running := false }
  if st1.session_ctx && st1.session then
    (clear_queues { st1 with session := false, session_ctx := false },
     [Act.setRunning false, Act.sleepMs 500,
      Act.closeSession closeFails, Act.drainQueues])
  else
    (clear_queues st1,
     [Act.setRunning false, Act.sleepMs 500, Act.drainQueues])

/-- The `while retry_count < max_retries` loop of `connect_with_retry`
(src/app.py:592-619), with `remaining = max_retries - retry_count`.
`stub n` tells whether the n-th connect attempt (0-based) succeeds.  On
success the context handle, session handle and running flag are set and the
loop returns `true`; on failure the freshly assigned context handle stays
behind, the failure is followed by a 1-second sleep, and the loop retries. -/
def connectAux (stub : Nat → Bool) : Nat → Nat → AudioLoopState →
    Bool × AudioLoopState × List Act
  | _, 0, st => (false, st, [])
  | retry_count, remaining + 1, st =>
    if stub retry_count then
      (true, { st with session_ctx := true, session := true, is_running := true },
       [Act.connectAttempt retry_count])
    else
      let res := connectAux stub (retry_count + 1) remaining
        { st with session_ctx := true }
      (res.1, res.2.1,
       Act.connectAttempt retry_count :: Act.sleepMs 1000 :: res.2.2)

/-- `AudioLoop.connect_with_retry` (src/app.py:592): run the retry loop from
`retry_count = 0`. -/
def AudioLoop.connect_with_retry (stub : Nat → Bool) (max_retries : Nat)
    (st : AudioLoopState) : Bool × AudioLoopState × List Act :=
  connectAux stub 0 max_retries st

def isConnectAttempt : Act → Bool
  | Act.connectAttempt _ => true
  | _ => false

/-- Number of connect attempts observed in a trace. -/
def countAttempts (tr : List Act) : Nat :=
  (tr.filter isConnectAttempt).length

/-- The `while self.is_running` loop of `send_realtime` (src/app.py:660-668),
fuel-bounded.  `sendOk k` tells whether the k-th upstream `session.send`
succeeds; a raised send error escapes the loop and the outer handler sets
`is_running` false (src/app.py:670-672).  Returns the final engine state and
the list of frames forwarded upstream, in order. -/
def send_realtime_go (sendOk : Nat → Bool) :
    Nat → AudioLoopState → List Frame → AudioLoopState × List Frame
  | 0, st, sent => (st, sent)
  | fuel + 1, st, sent =>
    if st.is_running then
      match st.out_queue with
      | [] => send_realtime_go sendOk fuel st sent
      | content :: rest =>
        if sendOk sent.length then
          send_realtime_go sendOk fuel { st with out_queue := rest }
            (sent ++ [content])
        else
          ({ st with out_queue := rest, is_running := false }, sent)
    else (st, sent)

/-- `AudioLoop.send_realtime` (src/app.py:654-672): the initial
`if not self.session or not self.is_running: raise ValueError` is caught by
the outer handler, which clears the running flag. -/
def AudioLoop.send_realtime (sendOk : Nat → Bool) (fuel : Nat)
    (st : AudioLoopState) : AudioLoopState × List Frame :=
  if st.session && st.is_running then send_realtime_go sendOk fuel st []
  else ({ st with is_running := false }, [])

/-- One outcome of `self.session.receive()` in `receive_audio`
(src/app.py:683-696): a completed turn of audio chunks, a cancellation, or a
raised error carrying its message (as a list of ASCII codes). -/
inductive RecvEvent where
  | turn (chunks : List (List Nat))
  | cancelled
  | err (msg : List Nat)
deriving DecidableEq

def bytesMatchAt : List Nat → List Nat → Bool
  | [], _ => true
  | _ :: _, [] => false
  | p :: ps, c :: cs => p == c && bytesMatchAt ps cs

def bytesHaveSub (pat : List Nat) : List Nat → Bool
  | [] => bytesMatchAt pat []
  | c :: cs => bytesMatchAt pat (c :: cs) || bytesHaveSub pat cs

/-- ASCII lower-casing of one code point, as Python `str.lower` acts on
ASCII text. -/
def lowerByte (b : Nat) : Nat := if 65 ≤ b && b ≤ 90 then b + 32 else b

/-- Python `"timeout" in str(e).lower()` (src/app.py:693): the pattern is
the ASCII codes of "timeout". -/
def isTimeoutMsg (msg : List Nat) : Bool :=
  bytesHaveSub [116, 105, 109, 101, 111, 117, 116] (msg.map lowerByte)

/-- The `while self.is_running` loop of `receive_audio` (src/app.py:681-698),
driven by the successive outcomes of `session.receive()`.  A turn's chunks
are appended to `audio_in_queue` and followed by the 10 ms yield; a
cancellation breaks out of the loop; an error whose message contains
"timeout" sleeps 1 s and retries; any other error breaks out of the loop —
none of the inner handlers touch `is_running`. -/
def receive_audio_go : List RecvEvent → AudioLoopState →
    AudioLoopState × List Act
  | [], st => (st, [])
  | e :: rest, st =>
    if st.is_running then
      match e with
      | RecvEvent.turn chunks =>
        let res := receive_audio_go rest
          { st with audio_in_queue := st.audio_in_queue ++ chunks }
        (res.1, Act.sleepMs 10 :: res.2)
      | RecvEvent.cancelled => (st, [])
      | RecvEvent.err msg =>
        if isTimeoutMsg msg then
          let res := receive_audio_go rest st
          (res.1, Act.sleepMs 1000 :: res.2)
        else (st, [])
    else (st, [])

/-- `AudioLoop.receive_audio` (src/app.py:674-702): only the initial
`raise ValueError` (no session, or not running) reaches the outer handler,
which clears the running flag; errors inside the loop are handled by the
inner `except` clauses. -/
def AudioLoop.receive_audio (events : List RecvEvent) (st : AudioLoopState) :
    AudioLoopState × List Act :=
  if st.session && st.is_running then receive_audio_go events st
  else ({ st with is_running := false }, [])

/-- The client fan-out inside `play_audio` (src/app.py:762-767): try
`ws.send` on each registered client in order; a failure is logged and the
loop moves on.  Returns the clients that received the chunk. -/
def broadcast_send (sendOk : Nat → Bool) : List Nat → List Nat
  | [] => []
  | c :: rest =>
    if sendOk c then c :: broadcast_send sendOk rest
    else broadcast_send sendOk rest

/-- One inbound chunk handled by `play_audio`: the for loop neither raises
past its `except` nor modifies `ws_clients`, so the registry is returned
unchanged alongside the delivery list. -/
def play_audio_broadcast (sendOk : Nat → Bool) (clients : List Nat) :
    List Nat × List Nat :=
  (broadcast_send sendOk clients, clients)

/-! ### Session manager (module globals + Flask routes, src/app.py:814-1054) -/

/-- The process-wide globals: `audio_loop`, `audio_thread` (modelled as
"present and alive"), and the `ws_clients` registry. -/
structure ManagerState where
  audio_loop : Option AudioLoopState
  audio_thread : Bool
  ws_clients : List Nat
deriving DecidableEq

/-- `terminate_voice` (src/app.py:1012-1054) inside `with session_lock`:
with no session the whole block is skipped and the state is untouched;
otherwise stop the loop, join the thread (2-second bound) when alive,
force-close every registered client, clear the registry, and release both
globals.  The response body is `{"status": "terminated"}` in both cases. -/
def terminate_voice (closeFails : Bool) (st : ManagerState) :
    ManagerState × List Act × String :=
  match st.audio_loop with
  | none => (st, [], "terminated")
  | some engine =>
    let stopRes := AudioLoop.stop closeFails engine
    let joinTrace := if st.audio_thread then [Act.joinThread 2000] else []
    ({ audio_loop := none, audio_thread := false, ws_clients := [] },
     stopRes.2 ++ joinTrace ++ st.ws_clients.map Act.closeClient,
     "terminated")

/-- A snapshot of the session objects alive at one instant during
`start_voice`: the `audio_loop` global plus the previous loop object, which
survives (referenced by its unjoined background thread) after the global is
reassigned. -/
structure SysSnapshot where
  currentLoop : Option AudioLoopState
  detachedLoop : Option AudioLoopState
deriving DecidableEq

def loopRunning : Option AudioLoopState → Nat
  | none => 0
  | some e => if e.is_running then 1 else 0

/-- How many Session objects are in the Running state in a snapshot. -/
def runningSessions (s : SysSnapshot) : Nat :=
  loopRunning s.currentLoop + loopRunning s.detachedLoop

/-- `start_voice` (src/app.py:948-1010) inside `with session_lock`, as the
sequence of snapshots it passes through plus the manager thread's action
trace: when a loop exists, stop it, join its thread (2-second bound) when
alive — the join is a best-effort wait and does not terminate the thread —
release the globals (`finally` block) and sleep 0.5 s, then create the
fresh loop and start its background thread, which enters `AudioLoop.run`
and attempts `connect_with_retry` (src/app.py:781).

The old loop's background thread is not stopped by any of this.  If it is
still inside its own `connect_with_retry` — whose retry loop never
rechecks `is_running` (src/app.py:596-616) — it keeps attempting after
the stop, and a late success sets the detached loop Running again with an
open handle.  `oldRemaining` is the number of connect attempts that
thread still has left at the time of the call (0 when it is already past
its connect loop, e.g. when the old session was Running or its retries
were exhausted) and `oldStub` gives their outcomes.  The snapshots place
that remaining activity after the manager's steps — one representative
interleaving; when `oldRemaining = 0` the thread makes no transitions at
all and the snapshots are interleaving-independent. -/
def start_voice (old : Option AudioLoopState) (oldRemaining : Nat)
    (oldStub : Nat → Bool) (threadAlive closeFails : Bool)
    (stub : Nat → Bool) : List SysSnapshot × List Act :=
  match old with
  | some engine =>
    let stopRes := AudioLoop.stop closeFails engine
    let oldRes := connectAux oldStub 0 oldRemaining stopRes.1
    let connRes := AudioLoop.connect_with_retry stub 3 initAudioLoop
    ([{ currentLoop := some engine, detachedLoop := none },
      { currentLoop := some stopRes.1, detachedLoop := none },
      { currentLoop := none, detachedLoop := some stopRes.1 },
      { currentLoop := some initAudioLoop, detachedLoop := some stopRes.1 },
      { currentLoop := some connRes.2.1, detachedLoop := some stopRes.1 },
      { currentLoop := some connRes.2.1, detachedLoop := some oldRes.2.1 }],
     stopRes.2 ++ (if threadAlive then [Act.joinThread 2000] else []) ++
       [Act.sleepMs 500, Act.createLoop] ++ connRes.2.2)
  | none =>
    let connRes := AudioLoop.connect_with_retry stub 3 initAudioLoop
    ([{ currentLoop := none, detachedLoop := none },
      { currentLoop := some initAudioLoop, detachedLoop := none },
      { currentLoop := some connRes.2.1, detachedLoop := none }],
     [Act.createLoop] ++ connRes.2.2)

/-- `ws_clients.add(ws)` (src/app.py:890): set semantics on the registry. -/
def wsAdd (clients : List Nat) (c : Nat) : List Nat :=
  if clients.contains c then clients else clients ++ [c]

/-- The connect path of `audio_stream_socket` (src/app.py:881-907): register
the socket; then, under `if not audio_loop or not audio_loop.is_running:`,
only the inner `if not audio_loop:` creates a loop and starts its thread
(which runs `connect_with_retry`) — a loop object whose running flag is
false is left in place, with just a warning logged.  The returned Bool
reports whether a new session was created and launched. -/
def audio_stream_connect (stub : Nat → Bool) (st : ManagerState) (c : Nat) :
    ManagerState × Bool :=
  let st1 := { st with ws_clients := wsAdd st.ws_clients c }
  match st1.audio_loop with
  | none =>
    let connRes := AudioLoop.connect_with_retry stub 3 initAudioLoop
    ({ st1 with audio_loop := some connRes.2.1, audio_thread := true }, true)
  | some engine => ({ st1 with audio_loop := some engine }, false)

/-- The disconnect path of `audio_stream_socket` (src/app.py:943-946): the
`finally` block removes the socket from the registry (when present) and
touches nothing else. -/
def audio_stream_disconnect (st : ManagerState) (c : Nat) : ManagerState :=
  { st with ws_clients := st.ws_clients.filter (fun x => !(x == c)) }

/-- An engine in the Running state (as left by a successful connect) whose
outbound queue holds the frames `q`. -/
def runningEngine (q : List Frame) : AudioLoopState :=
  { is_running := true, session := true, session_ctx := true,
    audio_in_queue := [], out_queue := q }

/-! ### Helper lemmas -/

theorem natToBytesAux_length (len : Nat) : ∀ n, (natToBytesAux n len).length = len := by
  induction len with
  | zero => intro n; rfl
  | succ k ih => intro n; simp [natToBytesAux, ih]

theorem le_bytes_natToBytesAux (len : Nat) :
    ∀ n, le_bytes_to_nat (natToBytesAux n len) = n % 256 ^ len := by
  induction len with
  | zero => intro n; simp [natToBytesAux, le_bytes_to_nat, Nat.mod_one]
  | succ k ih =>
    intro n
    rw [pow_succ']
    rw [Nat.mod_mul]
    simp [natToBytesAux, le_bytes_to_nat, ih]

theorem readField_at (pre mid post : List Nat) (off len : Nat)
    (hpre : pre.length = off) (hmid : mid.length = len) :
    readField (pre ++ (mid ++ post)) off len = le_bytes_to_nat mid := by
  unfold readField
  rw [← hpre, ← hmid, List.drop_left, List.take_left]

theorem create_wav_header_some (L : Nat) (h : L + 36 < 2 ^ 32) :
    create_wav_header L 24000 1 2 = some (wav_header_bytes L) := by
  have e : (2 : Nat) ^ 32 = 4294967296 := by norm_num
  have g1 : L + 36 < 4294967296 := by omega
  have g2 : L < 4294967296 := by omega
  simp [create_wav_header, to_bytes, wav_header_bytes, g1, g2]

theorem wav_header_bytes_length (L : Nat) : (wav_header_bytes L).length = 44 := by
  simp [wav_header_bytes, natToBytesAux_length]

theorem wav_riffsize (L : Nat) :
    readField (wav_header_bytes L) 4 4 = (L + 36) % 2 ^ 32 := by
  have hsplit : wav_header_bytes L =
      [82, 73, 70, 70] ++ (natToBytesAux (L + 36) 4 ++
        ([87, 65, 86, 69] ++ [102, 109, 116, 32] ++ natToBytesAux 16 4 ++
          natToBytesAux 1 2 ++ natToBytesAux 1 2 ++ natToBytesAux 24000 4 ++
          natToBytesAux 48000 4 ++ natToBytesAux 2 2 ++ natToBytesAux 16 2 ++
          [100, 97, 116, 97] ++ natToBytesAux L 4)) := by
    simp [wav_header_bytes, List.append_assoc]
  rw [hsplit, readField_at _ _ _ 4 4 (by simp) (natToBytesAux_length 4 _),
    le_bytes_natToBytesAux]
  norm_num

theorem wav_channels (L : Nat) :
    readField (wav_header_bytes L) 22 2 = 1 := by
  have hsplit : wav_header_bytes L =
      ([82, 73, 70, 70] ++ natToBytesAux (L + 36) 4 ++ [87, 65, 86, 69] ++
        [102, 109, 116, 32] ++ natToBytesAux 16 4 ++ natToBytesAux 1 2) ++
        (natToBytesAux 1 2 ++
          (natToBytesAux 24000 4 ++ natToBytesAux 48000 4 ++
            natToBytesAux 2 2 ++ natToBytesAux 16 2 ++ [100, 97, 116, 97] ++
            natToBytesAux L 4)) := by
    simp [wav_header_bytes, List.append_assoc]
  rw [hsplit, readField_at _ _ _ 22 2 (by simp [natToBytesAux_length])
    (natToBytesAux_length 2 _), le_bytes_natToBytesAux]
  norm_num

theorem wav_samplerate (L : Nat) :
    readField (wav_header_bytes L) 24 4 = 24000 := by
  have hsplit : wav_header_bytes L =
      ([82, 73, 70, 70] ++ natToBytesAux (L + 36) 4 ++ [87, 65, 86, 69] ++
        [102, 109, 116, 32] ++ natToBytesAux 16 4 ++ natToBytesAux 1 2 ++
        natToBytesAux 1 2) ++
        (natToBytesAux 24000 4 ++
          (natToBytesAux 48000 4 ++ natToBytesAux 2 2 ++ natToBytesAux 16 2 ++
            [100, 97, 116, 97] ++ natToBytesAux L 4)) := by
    simp [wav_header_bytes, List.append_assoc]
  rw [hsplit, readField_at _ _ _ 24 4 (by simp [natToBytesAux_length])
    (natToBytesAux_length 4 _), le_bytes_natToBytesAux]
  norm_num

theorem wav_byterate (L : Nat) :
    readField (wav_header_bytes L) 28 4 = 48000 := by
  have hsplit : wav_header_bytes L =
      ([82, 73, 70, 70] ++ natToBytesAux (L + 36) 4 ++ [87, 65, 86, 69] ++
        [102, 109, 116, 32] ++ natToBytesAux 16 4 ++ natToBytesAux 1 2 ++
        natToBytesAux 1 2 ++ natToBytesAux 24000 4) ++
        (natToBytesAux 48000 4 ++
          (natToBytesAux 2 2 ++ natToBytesAux 16 2 ++ [100, 97, 116, 97] ++
            natToBytesAux L 4)) := by
    simp [wav_header_bytes, List.append_assoc]
  rw [hsplit, readField_at _ _ _ 28 4 (by simp [natToBytesAux_length])
    (natToBytesAux_length 4 _), le_bytes_natToBytesAux]
  norm_num

theorem wav_blockalign (L : Nat) :
    readField (wav_header_bytes L) 32 2 = 2 := by
  have hsplit : wav_header_bytes L =
      ([82, 73, 70, 70] ++ natToBytesAux (L + 36) 4 ++ [87, 65, 86, 69] ++
        [102, 109, 116, 32] ++ natToBytesAux 16 4 ++ natToBytesAux 1 2 ++
        natToBytesAux 1 2 ++ natToBytesAux 24000 4 ++ natToBytesAux 48000 4) ++
        (natToBytesAux 2 2 ++
          (natToBytesAux 16 2 ++ [100, 97, 116, 97] ++ natToBytesAux L 4)) := by
    simp [wav_header_bytes, List.append_assoc]
  rw [hsplit, readField_at _ _ _ 32 2 (by simp [natToBytesAux_length])
    (natToBytesAux_length 2 _), le_bytes_natToBytesAux]
  norm_num

theorem wav_bits (L : Nat) :
    readField (wav_header_bytes L) 34 2 = 16 := by
  have hsplit : wav_header_bytes L =
      ([82, 73, 70, 70] ++ natToBytesAux (L + 36) 4 ++ [87, 65, 86, 69] ++
        [102, 109, 116, 32] ++ natToBytesAux 16 4 ++ natToBytesAux 1 2 ++
        natToBytesAux 1 2 ++ natToBytesAux 24000 4 ++ natToBytesAux 48000 4 ++
        natToBytesAux 2 2) ++
        (natToBytesAux 16 2 ++
          ([100, 97, 116, 97] ++ natToBytesAux L 4)) := by
    simp [wav_header_bytes, List.append_assoc]
  rw [hsplit, readField_at _ _ _ 34 2 (by simp [natToBytesAux_length])
    (natToBytesAux_length 2 _), le_bytes_natToBytesAux]
  norm_num

theorem wav_datalen (L : Nat) :
    readField (wav_header_bytes L) 40 4 = L % 2 ^ 32 := by
  have hsplit : wav_header_bytes L =
      ([82, 73, 70, 70] ++ natToBytesAux (L + 36) 4 ++ [87, 65, 86, 69] ++
        [102, 109, 116, 32] ++ natToBytesAux 16 4 ++ natToBytesAux 1 2 ++
        natToBytesAux 1 2 ++ natToBytesAux 24000 4 ++ natToBytesAux 48000 4 ++
        natToBytesAux 2 2 ++ natToBytesAux 16 2 ++ [100, 97, 116, 97]) ++
        (natToBytesAux L 4 ++ []) := by
    simp [wav_header_bytes, List.append_assoc]
  rw [hsplit, readField_at _ _ _ 40 4 (by simp [natToBytesAux_length])
    (natToBytesAux_length 4 _), le_bytes_natToBytesAux]
  norm_num

theorem drainQueue_nil {α : Type} : ∀ l : List α, drainQueue l = [] := by
  intro l
  induction l with
  | nil => rfl
  | cons x xs ih => simpa [drainQueue] using ih

theorem stop_is_running (closeFails : Bool) (st : AudioLoopState) :
    (AudioLoop.stop closeFails st).1.is_running = false := by
  by_cases h : (st.session_ctx && st.session) = true <;>
    simp [AudioLoop.stop, h, clear_queues]

theorem stop_session (closeFails : Bool) (st : AudioLoopState)
    (hctx : st.session = true → st.session_ctx = true) :
    (AudioLoop.stop closeFails st).1.session = false := by
  have hss : st.session = false ∨ (st.session_ctx && st.session) = true := by
    cases hs : st.session
    · exact Or.inl rfl
    · exact Or.inr (by simp [hctx hs, hs])
  rcases hss with hs | hs
  · by_cases h : (st.session_ctx && st.session) = true <;>
      simp [AudioLoop.stop, h, clear_queues, hs]
  · simp [AudioLoop.stop, hs, clear_queues]

theorem stop_trace_cases (closeFails : Bool) (st : AudioLoopState) :
    (AudioLoop.stop closeFails st).2 =
        [Act.setRunning false, Act.sleepMs 500,
         Act.closeSession closeFails, Act.drainQueues] ∨
      (AudioLoop.stop closeFails st).2 =
        [Act.setRunning false, Act.sleepMs 500, Act.drainQueues] := by
  by_cases h : (st.session_ctx && st.session) = true
  · exact Or.inl (by simp [AudioLoop.stop, h])
  · exact Or.inr (by simp [AudioLoop.stop, h])

theorem connectAux_attempts_le (stub : Nat → Bool) :
    ∀ remaining c st, countAttempts (connectAux stub c remaining st).2.2 ≤ remaining := by
  intro remaining
  induction remaining with
  | zero => intro c st; simp [connectAux, countAttempts]
  | succ k ih =>
    intro c st
    by_cases hs : stub c
    · simp [connectAux, hs, countAttempts, isConnectAttempt]
    · simp only [connectAux, hs, if_neg, Bool.false_eq_true, ite_false]
      simp only [countAttempts, List.filter, isConnectAttempt]
      have := ih (c + 1) { st with session_ctx := true }
      simp only [countAttempts] at this
      simp [List.length_cons]
      omega

theorem broadcast_send_eq_filter (sendOk : Nat → Bool) :
    ∀ cs, broadcast_send sendOk cs = cs.filter sendOk := by
  intro cs
  induction cs with
  | nil => rfl
  | cons c rest ih =>
    by_cases h : sendOk c <;> simp [broadcast_send, List.filter, h, ih]

theorem send_realtime_go_fifo (sendOk : Nat → Bool) :
    ∀ fuel st sent, ∃ k,
      (send_realtime_go sendOk fuel st sent).2 = sent ++ st.out_queue.take k ∧
      ((send_realtime_go sendOk fuel st sent).1.out_queue = st.out_queue.drop k ∨
       (send_realtime_go sendOk fuel st sent).1.out_queue = st.out_queue.drop (k + 1)) := by
  intro fuel
  induction fuel with
  | zero =>
    intro st sent
    exact ⟨0, by simp [send_realtime_go], Or.inl (by simp [send_realtime_go])⟩
  | succ f ih =>
    intro st sent
    by_cases hr : st.is_running
    · cases hq : st.out_queue with
      | nil =>
        have step : send_realtime_go sendOk (f + 1) st sent =
            send_realtime_go sendOk f st sent := by
          simp [send_realtime_go, hr, hq]
        obtain ⟨k, h1, h2⟩ := ih st sent
        rw [hq] at h1 h2
        exact ⟨k, by rw [step]; exact h1, by rw [step]; exact h2⟩
      | cons frame rest =>
        by_cases hsend : sendOk sent.length
        · have step : send_realtime_go sendOk (f + 1) st sent =
              send_realtime_go sendOk f { st with out_queue := rest }
                (sent ++ [frame]) := by
            simp [send_realtime_go, hr, hq, hsend]
          obtain ⟨k, h1, h2⟩ := ih { st with out_queue := rest } (sent ++ [frame])
          simp only at h1 h2
          refine ⟨k + 1, ?_, ?_⟩
          · rw [step, h1]
            simp [List.append_assoc]
          · rw [step]
            rcases h2 with h2 | h2
            · exact Or.inl (by simp [List.drop_succ_cons, h2])
            · exact Or.inr (by simp [List.drop_succ_cons, h2])
        · refine ⟨0, ?_, Or.inr ?_⟩
          · simp [send_realtime_go, hr, hq, hsend]
          · simp [send_realtime_go, hr, hq, hsend]
    · exact ⟨0, by simp [send_realtime_go, hr], Or.inl (by simp [send_realtime_go, hr])⟩

/-! ### Claim theorems -/

/-- C10: the WAV framer is partial in the payload length.  For every
`data_length` with `data_length + 36 < 2^32` (that is, up to `2^32 - 37`)
it returns a header of exactly 44 bytes; for every `data_length` at or
above `2^32 - 36` the 4-byte little-endian encoding of `data_length + 36`
overflows and the call raises, so framing is well-defined only under the
precondition `data_length < 2^32 - 36`. -/
theorem c10_wav_framer_domain (L : Nat) :
    (L + 36 < 2 ^ 32 →
      ∃ hdr, create_wav_header L 24000 1 2 = some hdr ∧ hdr.length = 44) ∧
    (2 ^ 32 - 36 ≤ L → create_wav_header L 24000 1 2 = none) := by
  constructor
  · intro h
    exact ⟨wav_header_bytes L, create_wav_header_some L h,
      wav_header_bytes_length L⟩
  · intro h
    have e : (2 : Nat) ^ 32 = 4294967296 := by norm_num
    have g : ¬ (L + 36 < 4294967296) := by omega
    simp [create_wav_header, to_bytes, g]

theorem c10_wav_framer_domain_witness :
    (∃ hdr, create_wav_header 1024 24000 1 2 = some hdr ∧ hdr.length = 44) ∧
    create_wav_header (2 ^ 32 - 36) 24000 1 2 = none :=
  ⟨(c10_wav_framer_domain 1024).1 (by norm_num),
   (c10_wav_framer_domain (2 ^ 32 - 36)).2 (by norm_num)⟩

/-- C4 counterexample: at payload length `2^32 - 36` the framer produces no
header at all (the RIFF chunk-size encoding overflows and the call raises),
so the claim's unconditional "for every raw PCM payload of length L"
round-trip is false at this length. -/
theorem c4_counterexample :
    create_wav_header (2 ^ 32 - 36) 24000 1 2 = none := by
  have g : ¬ ((2 : Nat) ^ 32 - 36 + 36 < 4294967296) := by norm_num
  simp [create_wav_header, to_bytes, g]

/-- C4 (amended with the overflow precondition of C10): for every raw PCM
payload whose length `L` satisfies `L + 36 < 2^32`, the framer produces a
44-byte header, the framed container `header ++ payload` has total length
`L + 44`, and re-parsing the header yields `data_length = L`, RIFF chunk
size `L + 36`, `sample_rate = 24000`, `channels = 1`,
`bits_per_sample = 16`, `byte_rate = sample_rate * channels * sample_width`
and `block_align = channels * sample_width`. -/
theorem c4_wav_roundtrip (payload : List Nat)
    (h : payload.length + 36 < 2 ^ 32) :
    ∃ hdr, create_wav_header payload.length 24000 1 2 = some hdr ∧
      hdr.length = 44 ∧
      (hdr ++ payload).length = payload.length + 44 ∧
      readField hdr 40 4 = payload.length ∧
      readField hdr 4 4 = payload.length + 36 ∧
      readField hdr 24 4 = 24000 ∧
      readField hdr 22 2 = 1 ∧
      readField hdr 34 2 = 16 ∧
      readField hdr 28 4 = 24000 * 1 * 2 ∧
      readField hdr 32 2 = 1 * 2 := by
  have hlen := wav_header_bytes_length payload.length
  refine ⟨wav_header_bytes payload.length, create_wav_header_some _ h, hlen,
    ?_, ?_, ?_, ?_, ?_, ?_, ?_, ?_⟩
  · rw [List.length_append, hlen]; omega
  · rw [wav_datalen]; exact Nat.mod_eq_of_lt (by omega)
  · rw [wav_riffsize]; exact Nat.mod_eq_of_lt h
  · exact wav_samplerate _
  · exact wav_channels _
  · exact wav_bits _
  · rw [wav_byterate]
  · rw [wav_blockalign]

theorem c4_wav_roundtrip_witness :
    ∃ hdr, create_wav_header ([9, 8, 7, 6] : List Nat).length 24000 1 2 = some hdr ∧
      hdr.length = 44 ∧
      (hdr ++ [9, 8, 7, 6]).length = ([9, 8, 7, 6] : List Nat).length + 44 ∧
      readField hdr 40 4 = ([9, 8, 7, 6] : List Nat).length ∧
      readField hdr 4 4 = ([9, 8, 7, 6] : List Nat).length + 36 ∧
      readField hdr 24 4 = 24000 ∧
      readField hdr 22 2 = 1 ∧
      readField hdr 34 2 = 16 ∧
      readField hdr 28 4 = 24000 * 1 * 2 ∧
      readField hdr 32 2 = 1 * 2 :=
  c4_wav_roundtrip [9, 8, 7, 6] (by norm_num)

/-- C3: with `max_retries = 3`, `connect_with_retry` makes at most 3
connect attempts whatever the stub does.  When the stub fails the first two
attempts and succeeds on the third, exactly 3 attempts are observed, the
function returns `true` and the running flag is set.  When every attempt
fails, exactly 3 attempts are observed, the function returns `false`, the
session handle is still absent, the running flag is still false, and every
attempt is followed by a 1-second delay. -/
theorem c3_connect_retry_policy :
    (∀ (stub : Nat → Bool) (st : AudioLoopState),
      countAttempts (AudioLoop.connect_with_retry stub 3 st).2.2 ≤ 3) ∧
    ((AudioLoop.connect_with_retry (fun n => n == 2) 3 initAudioLoop).1 = true ∧
     (AudioLoop.connect_with_retry (fun n => n == 2) 3 initAudioLoop).2.1.is_running = true ∧
     countAttempts (AudioLoop.connect_with_retry (fun n => n == 2) 3 initAudioLoop).2.2 = 3) ∧
    ((AudioLoop.connect_with_retry (fun _ => false) 3 initAudioLoop).1 = false ∧
     (AudioLoop.connect_with_retry (fun _ => false) 3 initAudioLoop).2.1.session = false ∧
     (AudioLoop.connect_with_retry (fun _ => false) 3 initAudioLoop).2.1.is_running = false ∧
     countAttempts (AudioLoop.connect_with_retry (fun _ => false) 3 initAudioLoop).2.2 = 3 ∧
     (AudioLoop.connect_with_retry (fun _ => false) 3 initAudioLoop).2.2 =
       [Act.connectAttempt 0, Act.sleepMs 1000, Act.connectAttempt 1,
        Act.sleepMs 1000, Act.connectAttempt 2, Act.sleepMs 1000]) := by
  refine ⟨fun stub st => connectAux_attempts_le stub 3 0 st, ?_, ?_⟩
  · exact ⟨by decide, by decide, by decide⟩
  · exact ⟨by decide, by decide, by decide, by decide, by decide⟩

/-- C7: frames enqueued to the outbound queue while the session is Running
are forwarded upstream by the send loop in FIFO order and each at most
once: after any number of loop iterations and for any pattern of upstream
send outcomes, the list of forwarded frames is exactly a take-prefix
`q.take k` of the enqueued sequence (same order, no duplication, no skips),
and the queue retains the un-dequeued suffix (`q.drop k`, or `q.drop (k+1)`
when the send of frame `k` raised after dequeuing it). -/
theorem c7_send_loop_fifo (sendOk : Nat → Bool) (fuel : Nat) (q : List Frame) :
    ∃ k,
      (AudioLoop.send_realtime sendOk fuel (runningEngine q)).2 = q.take k ∧
      ((AudioLoop.send_realtime sendOk fuel (runningEngine q)).1.out_queue
          = q.drop k ∨
       (AudioLoop.send_realtime sendOk fuel (runningEngine q)).1.out_queue
          = q.drop (k + 1)) := by
  have h := send_realtime_go_fifo sendOk fuel (runningEngine q) []
  simpa [AudioLoop.send_realtime, runningEngine] using h

/-- C2 counterexample: a non-timeout receive error (message "boom",
ASCII `[98, 111, 111, 109]`) makes the receive loop break out of its
`while`, but the inner `except` clause swallows the exception before the
outer handler could run, so the running flag is left `true` — the claim
says the loop "sets the running flag to false", which is false here. -/
theorem c2_counterexample :
    (AudioLoop.receive_audio [RecvEvent.err [98, 111, 111, 109]]
      (runningEngine [])).1.is_running = true := by decide

/-- C2 (amended): for every error raised while receiving a turn, if the
message does not indicate a timeout the receive loop exits immediately,
leaving the whole engine state — including the running flag — unchanged
(the flag is cleared only when an exception reaches the outer handler,
e.g. the initial session check); if the message indicates a timeout the
loop pauses 1 second and retries without changing the running flag. -/
theorem c2_receive_error_handling (msg : List Nat) (rest : List RecvEvent)
    (st : AudioLoopState) (hrun : st.is_running = true) :
    (isTimeoutMsg msg = false →
      receive_audio_go (RecvEvent.err msg :: rest) st = (st, [])) ∧
    (isTimeoutMsg msg = true →
      receive_audio_go (RecvEvent.err msg :: rest) st =
        ((receive_audio_go rest st).1,
         Act.sleepMs 1000 :: (receive_audio_go rest st).2)) := by
  constructor
  · intro h; simp [receive_audio_go, hrun, h]
  · intro h; simp [receive_audio_go, hrun, h]

theorem c2_receive_error_handling_witness :
    (receive_audio_go [RecvEvent.err [98, 111, 111, 109]] (runningEngine []) =
      (runningEngine [], [])) ∧
    (receive_audio_go [RecvEvent.err [84, 105, 109, 101, 111, 117, 116]]
        (runningEngine []) =
      ((receive_audio_go [] (runningEngine [])).1,
       Act.sleepMs 1000 :: (receive_audio_go [] (runningEngine [])).2)) :=
  ⟨(c2_receive_error_handling [98, 111, 111, 109] [] _ rfl).1 (by decide),
   (c2_receive_error_handling [84, 105, 109, 101, 111, 117, 116] [] _ rfl).2
     (by decide)⟩

/-- C6: every invocation of the stop sequence first clears the running
flag, then waits the 500 ms grace interval, and only then attempts to close
the upstream handle; it completes unconditionally — whether or not closing
raises (`closeFails` arbitrary), the handle is released and both queues end
empty.  The hypothesis records the reachability invariant that a session
handle is only ever set together with its context handle
(src/app.py:601-607). -/
theorem c6_stop_sequence (closeFails : Bool) (st : AudioLoopState)
    (hctx : st.session = true → st.session_ctx = true) :
    (AudioLoop.stop closeFails st).1.is_running = false ∧
    (AudioLoop.stop closeFails st).1.session = false ∧
    (AudioLoop.stop closeFails st).1.audio_in_queue = [] ∧
    (AudioLoop.stop closeFails st).1.out_queue = [] ∧
    ∃ rest, (AudioLoop.stop closeFails st).2 =
        Act.setRunning false :: Act.sleepMs 500 :: rest ∧
      (st.session_ctx = true → st.session = true →
        Act.closeSession closeFails ∈ rest) := by
  refine ⟨stop_is_running _ _, stop_session _ _ hctx, ?_, ?_, ?_⟩
  · by_cases h : (st.session_ctx && st.session) = true <;>
      simp [AudioLoop.stop, h, clear_queues, drainQueue_nil]
  · by_cases h : (st.session_ctx && st.session) = true <;>
      simp [AudioLoop.stop, h, clear_queues, drainQueue_nil]
  · rcases stop_trace_cases closeFails st with h | h
    · exact ⟨[Act.closeSession closeFails, Act.drainQueues], by rw [h],
        fun _ _ => List.mem_cons_self _ _⟩
    · refine ⟨[Act.drainQueues], by rw [h], ?_⟩
      intro hc hs
      exfalso
      have hlong : (AudioLoop.stop closeFails st).2 =
          [Act.setRunning false, Act.sleepMs 500,
           Act.closeSession closeFails, Act.drainQueues] := by
        simp [AudioLoop.stop, hc, hs]
      rw [h] at hlong
      exact absurd hlong (by simp)

theorem c6_stop_sequence_witness :
    (AudioLoop.stop true ⟨true, true, true, [[5]], [⟨[1], "audio/pcm"⟩]⟩).1.is_running = false ∧
    (AudioLoop.stop true ⟨true, true, true, [[5]], [⟨[1], "audio/pcm"⟩]⟩).1.session = false ∧
    (AudioLoop.stop true ⟨true, true, true, [[5]], [⟨[1], "audio/pcm"⟩]⟩).1.audio_in_queue = [] ∧
    (AudioLoop.stop true ⟨true, true, true, [[5]], [⟨[1], "audio/pcm"⟩]⟩).1.out_queue = [] ∧
    ∃ rest, (AudioLoop.stop true ⟨true, true, true, [[5]], [⟨[1], "audio/pcm"⟩]⟩).2 =
        Act.setRunning false :: Act.sleepMs 500 :: rest ∧
      ((true : Bool) = true → (true : Bool) = true →
        Act.closeSession true ∈ rest) :=
  c6_stop_sequence true ⟨true, true, true, [[5]], [⟨[1], "audio/pcm"⟩]⟩
    (fun _ => rfl)

/-- C9: broadcasting one inbound chunk delivers it to exactly the clients
whose send succeeds — a failure for one client never blocks the others —
and the registry is left untouched (the failing client is not removed by
the broadcast).  With clients 1, 2, 3 where client 2 always fails, the
chunk is still delivered to clients 1 and 3. -/
theorem c9_broadcast_fanout (sendOk : Nat → Bool) (clients : List Nat) :
    (play_audio_broadcast sendOk clients).1 = clients.filter sendOk ∧
    (play_audio_broadcast sendOk clients).2 = clients ∧
    (play_audio_broadcast (fun c => !(c == 2)) [1, 2, 3]).1 = [1, 3] :=
  ⟨broadcast_send_eq_filter sendOk clients, rfl, by decide⟩

theorem mem_wsAdd (cs : List Nat) (c : Nat) : c ∈ wsAdd cs c := by
  unfold wsAdd
  by_cases h : cs.contains c
  · rw [if_pos h]
    exact List.mem_of_elem_eq_true h
  · rw [if_neg h]
    exact List.mem_append_right _ (List.mem_singleton_self c)

/-- C5 counterexample: with an existing session object whose running flag
is false (so "no Session is active at connect time" in the claim's sense),
a WebSocket connect does not create or launch a new session — the handler's
inner `if not audio_loop:` guard fails, the stale loop object is kept
unchanged, and no thread is started; the claim says a new session would be
created and launched implicitly. -/
theorem c5_counterexample :
    (audio_stream_connect (fun _ => true)
      ⟨some initAudioLoop, false, []⟩ 7).2 = false ∧
    (audio_stream_connect (fun _ => true)
      ⟨some initAudioLoop, false, []⟩ 7).1.audio_loop = some initAudioLoop ∧
    (audio_stream_connect (fun _ => true)
      ⟨some initAudioLoop, false, []⟩ 7).1.audio_thread = false := by
  refine ⟨rfl, rfl, rfl⟩

/-- C5 (amended): every accepted WebSocket connection is added to the
client registry; a new session is created and launched implicitly only when
no session object exists at all (`audio_loop is None`) — an existing
session object is left in place even when its running flag is false; on
disconnect the socket is deregistered and the session (and its thread) are
left untouched. -/
theorem c5_ws_lifecycle (stub : Nat → Bool) (st : ManagerState) (c : Nat) :
    ((audio_stream_connect stub st c).1.ws_clients = wsAdd st.ws_clients c ∧
     c ∈ (audio_stream_connect stub st c).1.ws_clients) ∧
    (st.audio_loop = none →
      (audio_stream_connect stub st c).2 = true ∧
      (audio_stream_connect stub st c).1.audio_loop =
        some (AudioLoop.connect_with_retry stub 3 initAudioLoop).2.1 ∧
      (audio_stream_connect stub st c).1.audio_thread = true) ∧
    (∀ e, st.audio_loop = some e →
      (audio_stream_connect stub st c).2 = false ∧
      (audio_stream_connect stub st c).1.audio_loop = some e ∧
      (audio_stream_connect stub st c).1.audio_thread = st.audio_thread) ∧
    ((audio_stream_disconnect st c).audio_loop = st.audio_loop ∧
     (audio_stream_disconnect st c).audio_thread = st.audio_thread ∧
     c ∉ (audio_stream_disconnect st c).ws_clients) := by
  refine ⟨⟨?_, ?_⟩, ?_, ?_, rfl, rfl, ?_⟩
  · cases hl : st.audio_loop <;> simp [audio_stream_connect, hl]
  · cases hl : st.audio_loop <;>
      simpa [audio_stream_connect, hl] using mem_wsAdd st.ws_clients c
  · intro h; simp [audio_stream_connect, h]
  · intro e he; simp [audio_stream_connect, he]
  · simp [audio_stream_disconnect, List.mem_filter]

theorem c5_ws_lifecycle_witness :
    ((audio_stream_connect (fun _ => true) ⟨none, false, []⟩ 5).2 = true ∧
     (audio_stream_connect (fun _ => true) ⟨none, false, []⟩ 5).1.audio_loop =
       some (AudioLoop.connect_with_retry (fun _ => true) 3 initAudioLoop).2.1 ∧
     (audio_stream_connect (fun _ => true) ⟨none, false, []⟩ 5).1.audio_thread = true) ∧
    ((audio_stream_connect (fun _ => true) ⟨some initAudioLoop, true, []⟩ 5).2 = false ∧
     (audio_stream_connect (fun _ => true) ⟨some initAudioLoop, true, []⟩ 5).1.audio_loop = some initAudioLoop ∧
     (audio_stream_connect (fun _ => true) ⟨some initAudioLoop, true, []⟩ 5).1.audio_thread = true) :=
  ⟨(c5_ws_lifecycle (fun _ => true) ⟨none, false, []⟩ 5).2.1 rfl,
   (c5_ws_lifecycle (fun _ => true) ⟨some initAudioLoop, true, []⟩ 5).2.2.1
     initAudioLoop rfl⟩

/-- C8: calling `terminate_voice` with no session is a no-op — the state,
including registry and thread handle, is unchanged, no action is performed,
and the body `{"status": "terminated"}` is still returned.  With a session,
the same call runs the full stop sequence first, joins the background
thread with the 2-second bound when it is alive, force-closes every
registered client, clears the registry and releases the session, and
returns the same terminated status. -/
theorem c8_terminate_voice_idempotent (closeFails : Bool) (st : ManagerState) :
    (terminate_voice closeFails st).2.2 = "terminated" ∧
    (st.audio_loop = none →
      (terminate_voice closeFails st).1 = st ∧
      (terminate_voice closeFails st).2.1 = []) ∧
    (∀ e, st.audio_loop = some e →
      (terminate_voice closeFails st).1 =
        ⟨none, false, []⟩ ∧
      (∃ rest, (terminate_voice closeFails st).2.1 =
          (AudioLoop.stop closeFails e).2 ++ rest) ∧
      (st.audio_thread = true →
        Act.joinThread 2000 ∈ (terminate_voice closeFails st).2.1) ∧
      (∀ w ∈ st.ws_clients,
        Act.closeClient w ∈ (terminate_voice closeFails st).2.1)) := by
  refine ⟨?_, ?_, ?_⟩
  · cases hl : st.audio_loop <;> simp [terminate_voice, hl]
  · intro h; simp [terminate_voice, h]
  · intro e he
    refine ⟨by simp [terminate_voice, he], ?_, ?_, ?_⟩
    · exact ⟨(if st.audio_thread then [Act.joinThread 2000] else []) ++
        st.ws_clients.map Act.closeClient, by simp [terminate_voice, he]⟩
    · intro ht
      simp [terminate_voice, he, ht, List.mem_append]
    · intro w hw
      simp only [terminate_voice, he, List.mem_append]
      right
      exact List.mem_map_of_mem Act.closeClient hw

theorem c8_terminate_voice_idempotent_witness :
    ((terminate_voice true ⟨none, true, [4]⟩).2.2 = "terminated" ∧
     (terminate_voice true ⟨none, true, [4]⟩).1 = ⟨none, true, [4]⟩ ∧
     (terminate_voice true ⟨none, true, [4]⟩).2.1 = []) ∧
    ((terminate_voice true ⟨some (runningEngine []), true, [1, 2]⟩).1 =
       ⟨none, false, []⟩ ∧
     (∃ rest, (terminate_voice true ⟨some (runningEngine []), true, [1, 2]⟩).2.1 =
        (AudioLoop.stop true (runningEngine [])).2 ++ rest) ∧
     Act.joinThread 2000 ∈
       (terminate_voice true ⟨some (runningEngine []), true, [1, 2]⟩).2.1 ∧
     Act.closeClient 2 ∈
       (terminate_voice true ⟨some (runningEngine []), true, [1, 2]⟩).2.1) :=
  ⟨⟨(c8_terminate_voice_idempotent true ⟨none, true, [4]⟩).1,
    ((c8_terminate_voice_idempotent true ⟨none, true, [4]⟩).2.1 rfl).1,
    ((c8_terminate_voice_idempotent true ⟨none, true, [4]⟩).2.1 rfl).2⟩,
   ⟨((c8_terminate_voice_idempotent true
        ⟨some (runningEngine []), true, [1, 2]⟩).2.2 (runningEngine []) rfl).1,
    ((c8_terminate_voice_idempotent true
        ⟨some (runningEngine []), true, [1, 2]⟩).2.2 (runningEngine []) rfl).2.1,
    ((c8_terminate_voice_idempotent true
        ⟨some (runningEngine []), true, [1, 2]⟩).2.2 (runningEngine []) rfl).2.2.1 rfl,
    ((c8_terminate_voice_idempotent true
        ⟨some (runningEngine []), true, [1, 2]⟩).2.2 (runningEngine []) rfl).2.2.2 2
      (by decide)⟩⟩

theorem stop_trace_no_attempt (closeFails : Bool) (st : AudioLoopState) :
    ∀ a ∈ (AudioLoop.stop closeFails st).2, isConnectAttempt a = false := by
  intro a ha
  rcases stop_trace_cases closeFails st with h | h <;> rw [h] at ha <;>
    fin_cases ha <;> rfl

theorem stop_trace_setRunning (closeFails : Bool) (st : AudioLoopState) :
    Act.setRunning false ∈ (AudioLoop.stop closeFails st).2 := by
  rcases stop_trace_cases closeFails st with h | h <;> simp [h]

/-- C1 counterexample: a `start_voice` call made while the old session's
background thread is still inside its connect retry loop.  The old loop
here has a failed attempt behind it (context handle set, no session,
running flag false) and 2 attempts left, the next of which succeeds.
`stop()` finds nothing to close (src/app.py:629: `session` is None), the
bounded join cannot end the thread, and after the manager returns, the old
thread's late attempt sets the old loop Running with an open handle
(src/app.py:607-608 — the retry loop never rechecks `is_running`) while
the new session also connects: a snapshot holds two Sessions concurrently
Running, refuting the claim's invariant. -/
theorem c1_counterexample :
    ∃ s ∈ (start_voice (some ⟨false, false, true, [], []⟩) 2 (fun _ => true)
        true false (fun _ => true)).1, 2 ≤ runningSessions s := by decide

/-- C1 (amended): a `start_voice` call made while a session object exists
(the body runs atomically, holding `session_lock`) runs the old session's
full stop sequence, and the 2-second-bounded thread join when the old
thread is alive, strictly before creating the new loop, and every connect
attempt of the new session comes strictly after that creation (trace
part).  This yields the claimed no-two-Running invariant only when the old
background thread has already left its connect retry loop
(`oldRemaining = 0`): then the snapshot at which the fresh loop is created
still holds the old loop with flag false and handle released, and at most
one Session is Running at every instant.  When the old thread is still
retrying, the invariant can fail (see the counterexample), because
`connect_with_retry` never rechecks the running flag.  The hypothesis is
the reachability invariant that a session handle implies a context
handle. -/
theorem c1_stop_before_create (e : AudioLoopState) (oldRemaining : Nat)
    (oldStub stub : Nat → Bool) (threadAlive closeFails : Bool)
    (hctx : e.session = true → e.session_ctx = true) :
    (∃ pre post,
      (start_voice (some e) oldRemaining oldStub threadAlive closeFails stub).2 =
        pre ++ Act.createLoop :: post ∧
      Act.setRunning false ∈ pre ∧
      (threadAlive = true → Act.joinThread 2000 ∈ pre) ∧
      (∀ a ∈ pre, isConnectAttempt a = false) ∧
      post = (AudioLoop.connect_with_retry stub 3 initAudioLoop).2.2) ∧
    (oldRemaining = 0 →
      ((start_voice (some e) oldRemaining oldStub threadAlive closeFails stub).1[3]? =
        some ⟨some initAudioLoop, some (AudioLoop.stop closeFails e).1⟩ ∧
       (AudioLoop.stop closeFails e).1.is_running = false ∧
       (AudioLoop.stop closeFails e).1.session = false) ∧
      ∀ s ∈ (start_voice (some e) oldRemaining oldStub threadAlive closeFails stub).1,
        runningSessions s ≤ 1) := by
  have hstop := stop_is_running closeFails e
  constructor
  · cases threadAlive
    · refine ⟨(AudioLoop.stop closeFails e).2 ++ [Act.sleepMs 500],
        (AudioLoop.connect_with_retry stub 3 initAudioLoop).2.2,
        ?_, ?_, ?_, ?_, rfl⟩
      · simp [start_voice, List.append_assoc]
      · exact List.mem_append_left _ (stop_trace_setRunning closeFails e)
      · intro ht; exact absurd ht (by simp)
      · intro a ha
        rcases List.mem_append.mp ha with h1 | h1
        · exact stop_trace_no_attempt closeFails e a h1
        · fin_cases h1 <;> rfl
    · refine ⟨(AudioLoop.stop closeFails e).2 ++
          [Act.joinThread 2000, Act.sleepMs 500],
        (AudioLoop.connect_with_retry stub 3 initAudioLoop).2.2,
        ?_, ?_, ?_, ?_, rfl⟩
      · simp [start_voice, List.append_assoc]
      · exact List.mem_append_left _ (stop_trace_setRunning closeFails e)
      · intro _; simp
      · intro a ha
        rcases List.mem_append.mp ha with h1 | h1
        · exact stop_trace_no_attempt closeFails e a h1
        · fin_cases h1 <;> rfl
  · intro h0
    subst h0
    refine ⟨⟨rfl, hstop, stop_session _ _ hctx⟩, ?_⟩
    intro s hs
    simp only [start_voice, connectAux, List.mem_cons, List.not_mem_nil,
      or_false] at hs
    rcases hs with rfl | rfl | rfl | rfl | rfl | rfl
    · simp only [runningSessions, loopRunning]
      cases e.is_running <;> simp
    · simp [runningSessions, loopRunning, hstop]
    · simp [runningSessions, loopRunning, hstop]
    · simp [runningSessions, loopRunning, hstop, initAudioLoop]
    · simp only [runningSessions, loopRunning, hstop]
      cases hr : (AudioLoop.connect_with_retry stub 3 initAudioLoop).2.1.is_running <;>
        simp [hr]
    · simp only [runningSessions, loopRunning, hstop]
      cases hr : (AudioLoop.connect_with_retry stub 3 initAudioLoop).2.1.is_running <;>
        simp [hr]

theorem c1_stop_before_create_witness :
    (∃ pre post,
      (start_voice (some (runningEngine [])) 0 (fun _ => false) true true
        (fun _ => true)).2 = pre ++ Act.createLoop :: post ∧
      Act.setRunning false ∈ pre ∧
      ((true : Bool) = true → Act.joinThread 2000 ∈ pre) ∧
      (∀ a ∈ pre, isConnectAttempt a = false) ∧
      post = (AudioLoop.connect_with_retry (fun _ => true) 3 initAudioLoop).2.2) ∧
    (((start_voice (some (runningEngine [])) 0 (fun _ => false) true true
        (fun _ => true)).1[3]? =
        some ⟨some initAudioLoop, some (AudioLoop.stop true (runningEngine [])).1⟩ ∧
      (AudioLoop.stop true (runningEngine [])).1.is_running = false ∧
      (AudioLoop.stop true (runningEngine [])).1.session = false) ∧
     ∀ s ∈ (start_voice (some (runningEngine [])) 0 (fun _ => false) true true
        (fun _ => true)).1, runningSessions s ≤ 1) :=
  ⟨(c1_stop_before_create (runningEngine []) 0 (fun _ => false) (fun _ => true)
      true true (fun _ => rfl)).1,
   (c1_stop_before_create (runningEngine []) 0 (fun _ => false) (fun _ => true)
      true true (fun _ => rfl)).2 rfl⟩
